import Mathlib

set_option linter.unusedVariables false

/-!
Verification development for the signal-to-order reconciliation engine of the
tradingalerts repository.  The definitions below are shallow embeddings of the
Python functions in src/: order submission (src/orders.py), the position-state
reconciliation (src/performance_optimizations.py), the rollover scheduler body
(src/app.py), the FIFO PnL engine (src/database.py) and the idempotency gate
(src/redis_utils.py).  Prices are modelled as rationals, machine integers as
Int/Nat, broker and store I/O as explicit outcome parameters, and raised
Python exceptions as explicit error values.
-/

/-- Character-list version of the test that one string occurs inside another,
used to model the Python `in` operator on strings. -/
def charsStart : List Char → List Char → Bool
  | [], _ => true
  | _ :: _, [] => false
  | a :: as, b :: bs => a == b && charsStart as bs

/-- True when the first character list occurs contiguously inside the second. -/
def charsInside (pat : List Char) : List Char → Bool
  | [] => pat.isEmpty
  | c :: t => charsStart pat (c :: t) || charsInside pat t

/-- Broker transaction types. -/
inductive TxnType
  | BUY
  | SELL
deriving DecidableEq, Repr

/-- Broker order types used by the submitter. -/
inductive OrderKind
  | MARKET
  | LIMIT
deriving DecidableEq, Repr

/-- Broker product types.  MIS appears in the vocabulary of the spec and of the
comments in performance_optimizations.py; the embedding shows where (if
anywhere) it is actually produced. -/
inductive Product
  | NRML
  | CNC
  | MIS
deriving DecidableEq, Repr

/-- Order validity values. -/
inductive Validity
  | DAY
deriving DecidableEq, Repr

/-- Statuses written to the orders table (src/database.py). -/
inductive LedgerStatus
  | ATTEMPTING
  | SUCCESS
  | FAILED
  | DUPLICATE_PREVENTED
  | FORWARD_TEST_SUCCESS
deriving DecidableEq, Repr

/-- Every status other than ATTEMPTING is terminal. -/
def LedgerStatus.isTerminal : LedgerStatus → Bool
  | .ATTEMPTING => false
  | _ => true

/-- Parameters of one broker order request (the kwargs built in
src/orders.py, lines 251-259 and 297-306). -/
structure OrderParams where
  tradingsymbol : String
  exchange : String
  transaction_type : TxnType
  quantity : Int
  order_type : OrderKind
  product : Product
  price : Option ℚ
  validity : Option Validity
  tag : Option String
deriving DecidableEq, Repr

/-- Observable events of one `place_order` run: ledger writes (the insert also
records the product string computed at lines 193-198) and broker calls. -/
inductive Event
  | ledgerInsert (s : LedgerStatus) (loggedProduct : Product)
  | ledgerUpdate (s : LedgerStatus)
  | brokerCall (p : OrderParams)
deriving DecidableEq, Repr

/-- Outcome of one `kite.place_order` call: an order id, or a raised exception
carrying an error message. -/
inductive BrokerReply
  | ok (orderId : String)
  | err (msg : String)
deriving DecidableEq, Repr

/-- External circumstances of one `place_order` run: the FORWARD_TESTING_MODE
flag, the result of the duplicate-pending-order check, the replies the broker
would give to the first and (if made) second placement call, and the random
simulated id.  The database itself is assumed reachable (normal operation). -/
structure Env where
  forwardTesting : Bool
  hasDuplicate : Bool
  firstReply : BrokerReply
  secondReply : BrokerReply
  simulatedId : String
deriving DecidableEq, Repr

/-- Result of one `place_order` run: the event trace plus the returned pair
(order id, error message). -/
structure PlaceOrderRun where
  events : List Event
  orderId : Option String
  errorMsg : Option String
deriving DecidableEq, Repr

/-- Broker calls performed during the run, in order. -/
def PlaceOrderRun.calls (r : PlaceOrderRun) : List OrderParams :=
  r.events.filterMap fun e =>
    match e with
    | .brokerCall p => some p
    | _ => none

/-- Product string computed for the database log at src/orders.py lines
193-198: NRML for NFO, CNC for NSE, NRML otherwise. -/
def logged_product_type (segment : String) : Product :=
  if segment == "NFO" then .NRML
  else if segment == "NSE" then .CNC
  else .NRML

/-- ASCII lowercasing of one character, modelling Python str.lower on the
ASCII error messages the broker emits. -/
def char_lower (c : Char) : Char :=
  if 'A' ≤ c ∧ c ≤ 'Z' then Char.ofNat (c.toNat + 32) else c

/-- Test for the illiquid / market-protection rejection at src/orders.py lines
280-282, applied to the lowercased error message. -/
def illiquid_marker (msg : String) : Bool :=
  let m : List Char := msg.data.map char_lower
  charsInside ("market orders are blocked for illiquid etfs").data m ||
    charsInside ("market protection").data m ||
    charsInside ("illiquid").data m

/-- ASCII uppercasing of one character, modelling Python str.upper on the
action strings buy and sell. -/
def char_upper (c : Char) : Char :=
  if 'a' ≤ c ∧ c ≤ 'z' then Char.ofNat (c.toNat - 32) else c

/-- Protected limit price computed at src/orders.py lines 288-294 with
buffer_multiplier = 0.005; none models the branch in which neither comparison
matches and the variable is never assigned (a NameError caught by the interior
handler). -/
def protected_price (action : String) (price : ℚ) : Option ℚ :=
  if action.data.map char_upper == ("BUY").data then
    some (price * (1 + 5 / 1000))
  else if action.data.map char_upper == ("SELL").data then
    some (price * (1 - 5 / 1000))
  else none

/-- Shallow embedding of `place_order` (src/orders.py, lines 139-352) under a
working database.  The positional parameters after `kite` are tradingsymbol,
action, price, segment, quantity, webhook_timestamp, tv_symbol, request_id;
the last three do not influence the behaviour modelled here and are omitted.
The live product at line 257 is NRML when segment is NFO and CNC otherwise. -/
def place_order (env : Env) (tradingsymbol : String) (action : String)
    (price : ℚ) (segment : String) (quantity : Int) : PlaceOrderRun :=
  let insert : Event := .ledgerInsert .ATTEMPTING (logged_product_type segment)
  if env.forwardTesting then
    { events := [insert, .ledgerUpdate .FORWARD_TEST_SUCCESS],
      orderId := some env.simulatedId, errorMsg := none }
  else if env.hasDuplicate then
    { events := [insert, .ledgerUpdate .DUPLICATE_PREVENTED],
      orderId := none, errorMsg := some ("Duplicate order prevented") }
  else
    let params1 : OrderParams :=
      { tradingsymbol := tradingsymbol, exchange := segment,
        transaction_type := if action == "buy" then .BUY else .SELL,
        quantity := quantity, order_type := .MARKET,
        product := if segment == "NFO" then .NRML else .CNC,
        price := none, validity := none, tag := none }
    match env.firstReply with
    | .ok oid =>
        { events := [insert, .brokerCall params1, .ledgerUpdate .SUCCESS],
          orderId := some oid, errorMsg := none }
    | .err msg =>
        if illiquid_marker msg then
          match protected_price action price with
          | some pp =>
              let params2 : OrderParams :=
                { params1 with
                    order_type := .LIMIT,
                    price := some pp,
                    validity := some .DAY,
                    tag := some ("market_protection") }
              match env.secondReply with
              | .ok oid2 =>
                  { events := [insert, .brokerCall params1,
                      .brokerCall params2, .ledgerUpdate .SUCCESS],
                    orderId := some oid2, errorMsg := none }
              | .err m2 =>
                  { events := [insert, .brokerCall params1,
                      .brokerCall params2, .ledgerUpdate .FAILED],
                    orderId := none,
                    errorMsg := some ("Both regular and protected market orders failed. Original: " ++ msg ++ ". Protected: " ++ m2) }
          | none =>
              { events := [insert, .brokerCall params1, .ledgerUpdate .FAILED],
                orderId := none, errorMsg := some msg }
        else
          { events := [insert, .brokerCall params1, .ledgerUpdate .FAILED,
              .ledgerUpdate .FAILED],
            orderId := none, errorMsg := some msg }

/-- Maximal number of positional arguments accepted by `place_order`
(src/orders.py lines 139-149: kite, tradingsymbol, action, price, segment,
quantity, webhook_timestamp, tv_symbol, request_id). -/
def place_order_positional_arity : Nat := 9

/-- A Python positional call of place_order with nArgs positional arguments:
it raises TypeError (the error value) when nArgs exceeds the arity. -/
def call_place_order (nArgs : Nat) (env : Env) (tradingsymbol action : String)
    (price : ℚ) (segment : String) (quantity : Int) :
    Except Unit PlaceOrderRun :=
  if nArgs ≤ place_order_positional_arity then
    .ok (place_order env tradingsymbol action price segment quantity)
  else
    .error ()

/-- Result of the step-2 reconciliation of process_account_optimized: the
returned status string and the event trace of the place_order run, when one
was executed (empty when no call was made or the call raised TypeError). -/
structure Step2Result where
  status : String
  events : List Event
deriving DecidableEq, Repr

/-- Broker calls performed during the reconciliation. -/
def Step2Result.calls (r : Step2Result) : List OrderParams :=
  r.events.filterMap fun e =>
    match e with
    | .brokerCall p => some p
    | _ => none

/-- Shallow embedding of step 2 of `process_account_optimized`
(src/performance_optimizations.py, lines 222-307) for a resolved
tradingsymbol, live signed quantity qty_held and order size total_quantity.
The cover branch (lines 237-239) and the flat-short branch (lines 289-291)
pass ten positional arguments to place_order, kite, tradingsymbol, action,
price, segment, quantity, webhook_timestamp, tv_symbol, request_id and
product_override, one more than place_order accepts; the resulting TypeError
propagates to the handler at lines 304-307 which returns status error. -/
def process_step2 (env : Env) (tradingsymbol : String) (segment : String)
    (action : String) (price : ℚ) (qty_held : Int) (total_quantity : Int) :
    Step2Result :=
  if action == "buy" then
    if qty_held > 0 then
      { status := "already holding, buy skipped", events := [] }
    else if qty_held < 0 then
      match call_place_order 10 env tradingsymbol action price segment |qty_held| with
      | .ok run =>
          { status := if run.orderId.isSome then "cover order placed" else "buy order failed",
            events := run.events }
      | .error _ => { status := "error", events := [] }
    else
      match call_place_order 9 env tradingsymbol action price segment total_quantity with
      | .ok run =>
          { status := if run.orderId.isSome then "buy order placed" else "buy order failed",
            events := run.events }
      | .error _ => { status := "error", events := [] }
  else if action == "sell" then
    if qty_held < 0 then
      { status := "already short, sell skipped", events := [] }
    else if qty_held > 0 then
      match call_place_order 9 env tradingsymbol action price segment qty_held with
      | .ok run =>
          { status := if run.orderId.isSome then "sell order placed" else "sell order failed",
            events := run.events }
      | .error _ => { status := "error", events := [] }
    else
      match call_place_order 10 env tradingsymbol action price segment total_quantity with
      | .ok run =>
          { status := if run.orderId.isSome then "short order placed" else "sell order failed",
            events := run.events }
      | .error _ => { status := "error", events := [] }
  else
    { status := "unknown error", events := [] }

/-- Futures contract record produced by get_top_3_futures_from_tv_symbol
(src/orders.py lines 44-54).  Dates are day numbers (days since 1970-01-01);
the int / string / datetime / Timestamp conversions at
src/performance_optimizations.py lines 189-202 all end in such a date. -/
structure Contract where
  tradingsymbol : String
  expiry : Option Int
  lot_size : Int
deriving DecidableEq, Repr

/-- Day of week of a day number, matching Python date.weekday: Monday = 0,
Sunday = 6.  Day 0 (1970-01-01) was a Thursday, weekday 3. -/
def weekday (d : Int) : Int :=
  (d + 3) % 7

/-- Shallow embedding of the flat-entry contract selection of
process_account_optimized (src/performance_optimizations.py lines 183-209):
when no contract carries a position, default to the front contract, and move
to the second contract when the front expiry is at most 7 days away, today is
a weekday and a second contract exists.  A falsy (absent) expiry keeps the
default. -/
def select_entry_contract (contracts : List Contract) (today : Int) :
    Option Contract :=
  match contracts with
  | [] => none
  | c0 :: rest =>
    match c0.expiry with
    | none => some c0
    | some e =>
      let days_left := e - today
      if days_left ≤ 7 ∧ weekday today < 5 ∧ 1 < contracts.length then
        rest.head?
      else
        some c0

/-- A net position row as returned by kite.positions at the broker boundary. -/
structure PositionRow where
  tradingsymbol : String
  exchange : String
  quantity : Int
  product : String
deriving DecidableEq, Repr

/-- A raised Python exception, by kind and offending name. -/
inductive PyError
  | nameError (name : String)
  | typeError (what : String)
deriving DecidableEq, Repr

/-- Shallow embedding of the per-underlying body of the rollover loop
(src/app.py lines 186-228) given the resolved contracts, the net positions
and today's day number.  Both place_order calls (lines 220 and 222) are
commented out in the source, so when a rollover is due and a position is held
the statement at line 221 reads the unbound name order_id and raises
NameError; on every other path the loop body completes without placing any
order. -/
def rollover_symbol_step (contracts : List Contract)
    (positions : List PositionRow) (today : Int) :
    Except PyError (List OrderParams) :=
  if contracts.length < 2 then
    .ok []
  else
    match contracts with
    | [] => .ok []
    | current :: _ =>
      match current.expiry with
      | none => .error (.typeError ("unsupported operand type for expiry None"))
      | some e =>
        let days_left := e - today
        if days_left ≤ 7 ∧ weekday today < 5 then
          let existing := positions.find? fun p =>
            p.tradingsymbol == current.tradingsymbol &&
              (p.exchange == "NFO" || p.exchange == "MCX")
          let qty_held : Int := match existing with
            | some p => p.quantity
            | none => 0
          if qty_held > 0 then
            .error (.nameError ("order_id"))
          else
            .ok []
        else
          .ok []

/-- True when a rollover run produced no broker orders (it errored, or it
completed with an empty order list). -/
def no_orders_produced (r : Except PyError (List OrderParams)) : Bool :=
  match r with
  | .ok l => l.isEmpty
  | .error _ => true

/-- A holdings row as returned by kite.holdings; t1_quantity is none when the
key is absent from the dict. -/
structure HoldingRow where
  tradingsymbol : String
  quantity : Int
  t1_quantity : Option Int
deriving DecidableEq, Repr

/-- Shallow embedding of the NSE branch of get_positions_and_holdings_direct
(src/performance_optimizations.py lines 92-132).  The two legs are passed as
outcomes, ok with the fetched rows or error for a timeout or API failure.
asyncio.gather propagates the first exception of either leg, and the
enclosing try/except returns the safe default (0, empty) for the whole read;
only when both legs succeed is the signed quantity the holdings quantity,
plus t1_quantity when present, plus the matching NSE net-position quantity. -/
def nse_positions_and_holdings (holdingsLeg : Except Unit (List HoldingRow))
    (positionsLeg : Except Unit (List PositionRow)) (tradingsymbol : String) :
    Int × Option PositionRow :=
  match holdingsLeg, positionsLeg with
  | .ok holdings, .ok positions =>
    let existing_holdings := holdings.find? fun h =>
      h.tradingsymbol == tradingsymbol
    let qty_h := match existing_holdings with
      | some h => h.quantity + h.t1_quantity.getD 0
      | none => 0
    let existing_position := positions.find? fun p =>
      p.tradingsymbol == tradingsymbol && p.exchange == "NSE"
    let qty_p := match existing_position with
      | some p => p.quantity
      | none => 0
    (qty_h + qty_p, existing_position)
  | _, _ => (0, none)

/-- The quantity the specification ascribes to a one-leg failure, stated in
its own words for comparison: each leg degrades independently, a failed leg
contributing zero while the succeeding leg still contributes its quantity. -/
def spec_per_leg_degraded_quantity (holdingsLeg : Except Unit (List HoldingRow))
    (positionsLeg : Except Unit (List PositionRow)) (tradingsymbol : String) :
    Int :=
  let fromHoldings : Int := match holdingsLeg with
    | .ok holdings =>
      match holdings.find? (fun h => h.tradingsymbol == tradingsymbol) with
      | some h => h.quantity + h.t1_quantity.getD 0
      | none => 0
    | .error _ => 0
  let fromPositions : Int := match positionsLeg with
    | .ok positions =>
      match positions.find? (fun p => p.tradingsymbol == tradingsymbol && p.exchange == "NSE") with
      | some p => p.quantity
      | none => 0
    | .error _ => 0
  fromHoldings + fromPositions

/-- A persisted row of the orders table as read back by get_orders_by_symbol
(src/database.py).  The timestamp is an abstract creation-time key. -/
structure OrderRow where
  order_id : Option String
  transaction_type : String
  quantity : Int
  price : Option ℚ
  status : String
  timestamp : Nat
deriving DecidableEq, Repr

/-- Python truthiness of the order_id column: present and non-empty. -/
def truthy_id : Option String → Bool
  | none => false
  | some s => !(s == "")

/-- Stable ascending insertion by timestamp: a row is placed after every
earlier-or-equal row, matching Python's stable sorted(key=timestamp). -/
def insert_by_ts (r : OrderRow) : List OrderRow → List OrderRow
  | [] => [r]
  | x :: xs =>
    if r.timestamp < x.timestamp then r :: x :: xs
    else x :: insert_by_ts r xs

/-- Stable ascending sort by timestamp. -/
def sort_by_ts : List OrderRow → List OrderRow
  | [] => []
  | x :: xs => insert_by_ts x (sort_by_ts xs)

/-- One step of the FIFO matching loop of _calculate_fifo_pnl
(src/database.py lines 293-317), written on the sorted queues: match the
minimum of the oldest remaining buy quantity and the oldest remaining sell
quantity, accrue (sell price - buy price) times the matched quantity, and
drop whichever side reached zero.  The fuel argument bounds the iteration
count; each iteration drops at least one row, so buys.length + sells.length
fuel always suffices. -/
def fifo_go : Nat → List OrderRow → List OrderRow → ℚ
  | 0, _, _ => 0
  | _ + 1, [], _ => 0
  | _ + 1, _, [] => 0
  | fuel + 1, b :: bs, s :: ss =>
    let m : Int := if b.quantity ≤ s.quantity then b.quantity else s.quantity
    let pnl := ((s.price.getD 0) - (b.price.getD 0)) * (m : ℚ)
    if b.quantity = s.quantity then
      pnl + fifo_go fuel bs ss
    else if b.quantity < s.quantity then
      pnl + fifo_go fuel bs ({ s with quantity := s.quantity - b.quantity } :: ss)
    else
      pnl + fifo_go fuel ({ b with quantity := b.quantity - s.quantity } :: bs) ss

/-- Shallow embedding of _calculate_fifo_pnl (src/database.py lines 279-319):
zero when either side is empty, otherwise the FIFO match over each side
sorted ascending by timestamp. -/
def calculate_fifo_pnl (buy_orders sell_orders : List OrderRow) : ℚ :=
  if buy_orders.isEmpty || sell_orders.isEmpty then 0
  else
    let bq := sort_by_ts buy_orders
    let sq := sort_by_ts sell_orders
    fifo_go (bq.length + sq.length) bq sq

/-- The summary produced by calculate_symbol_pnl. -/
structure PnlSummary where
  total_buy_qty : Int
  total_sell_qty : Int
  current_position : Int
  realized_pnl : ℚ
  avg_buy_price : ℚ
  avg_sell_price : ℚ
deriving DecidableEq, Repr

/-- Shallow embedding of calculate_symbol_pnl (src/database.py lines
217-273) on the rows of one symbol: keep rows whose status is SUCCESS or
FORWARD_TEST_SUCCESS with a truthy order id, split by transaction type, and
derive totals, quantity-weighted averages and the FIFO realized PnL. -/
def calculate_symbol_pnl (orders : List OrderRow) : PnlSummary :=
  let successful := orders.filter fun o =>
    (o.status == "SUCCESS" || o.status == "FORWARD_TEST_SUCCESS") &&
      truthy_id o.order_id
  if successful.isEmpty then
    { total_buy_qty := 0, total_sell_qty := 0, current_position := 0,
      realized_pnl := 0, avg_buy_price := 0, avg_sell_price := 0 }
  else
    let buy_orders := successful.filter fun o => o.transaction_type == "BUY"
    let sell_orders := successful.filter fun o => o.transaction_type == "SELL"
    let total_buy_qty := (buy_orders.map (fun o => o.quantity)).sum
    let total_sell_qty := (sell_orders.map (fun o => o.quantity)).sum
    let avg_buy_price : ℚ :=
      if !buy_orders.isEmpty && total_buy_qty > 0 then
        ((buy_orders.map fun o => (o.quantity : ℚ) * o.price.getD 0).sum) / (total_buy_qty : ℚ)
      else 0
    let avg_sell_price : ℚ :=
      if !sell_orders.isEmpty && total_sell_qty > 0 then
        ((sell_orders.map fun o => (o.quantity : ℚ) * o.price.getD 0).sum) / (total_sell_qty : ℚ)
      else 0
    { total_buy_qty := total_buy_qty,
      total_sell_qty := total_sell_qty,
      current_position := total_buy_qty - total_sell_qty,
      realized_pnl := calculate_fifo_pnl buy_orders sell_orders,
      avg_buy_price := avg_buy_price,
      avg_sell_price := avg_sell_price }

/-- Outcome of one attempt of the idempotency gate against Redis. -/
inductive RedisAttempt
  | reachable
  | connError
  | otherError
deriving DecidableEq, Repr

/-- Model of the Redis store for the gate: set keys with their expiry in
seconds.  set(key, nx=True, ex) returns whether the key was newly set and the
updated store. -/
def redis_set_nx (store : List (String × Nat)) (key : String) (ex : Nat) :
    Bool × List (String × Nat) :=
  if store.any (fun kv => kv.1 == key) then (false, store)
  else (true, (key, ex) :: store)

/-- Maximum attempts of is_duplicate (src/redis_utils.py line 43). -/
def max_retries : Nat := 3

/-- Result of an is_duplicate run: the returned flag, the resulting store and
the sequence of backoff sleeps performed, in seconds. -/
structure IsDupResult where
  isDup : Bool
  store : List (String × Nat)
  sleeps : List ℚ
deriving DecidableEq, Repr

/-- The retry loop of is_duplicate (src/redis_utils.py lines 47-64): on a
reachable attempt return not was_set; on a connection error sleep
0.1 * 2 ^ attempt and retry while attempts remain, else return false; on any
other error return false at once.  remaining counts loop iterations left and
starts at max_retries, so the fuel-exhausted case is never reached. -/
def is_dup_loop (store : List (String × Nat)) (key : String)
    (outcomes : Nat → RedisAttempt) (attempt remaining : Nat) : IsDupResult :=
  match remaining with
  | 0 => { isDup := false, store := store, sleeps := [] }
  | r + 1 =>
    match outcomes attempt with
    | .reachable =>
      let ws := redis_set_nx store key 86400
      { isDup := !ws.1, store := ws.2, sleeps := [] }
    | .otherError => { isDup := false, store := store, sleeps := [] }
    | .connError =>
      if attempt < max_retries - 1 then
        let res := is_dup_loop store key outcomes (attempt + 1) r
        { isDup := res.isDup, store := res.store,
          sleeps := (1 / 10 : ℚ) * 2 ^ attempt :: res.sleeps }
      else
        { isDup := false, store := store, sleeps := [] }

/-- Shallow embedding of is_duplicate (src/redis_utils.py lines 43-64): the
gate key is idempotency: followed by the symbol, a colon and the timestamp,
set atomically with nx and a 86400-second expiry. -/
def is_duplicate (store : List (String × Nat)) (symbol timestamp : String)
    (outcomes : Nat → RedisAttempt) : IsDupResult :=
  let key := "idempotency:" ++ symbol ++ ":" ++ timestamp
  is_dup_loop store key outcomes 0 max_retries

/-- Whether the gate key is already present in the store. -/
def gate_key_present (store : List (String × Nat)) (symbol timestamp : String) :
    Bool :=
  store.any fun kv => kv.1 == "idempotency:" ++ symbol ++ ":" ++ timestamp

/-- Python int() truncation of a float toward zero. -/
def py_int_of_float (q : ℚ) : Int :=
  if 0 ≤ q then ⌊q⌋ else ⌈q⌉

/-- Shallow embedding of the quantity normalisation of the webhook handler
(src/app.py lines 437-440): the payload quantity is truncated to an int when
truthy (1 otherwise), then overwritten to 1 for the NFO and MCX segments. -/
def webhook_quantity (segment : String) (payload_quantity : ℚ) : Int :=
  let quantity := if payload_quantity ≠ 0 then py_int_of_float payload_quantity else 1
  if segment == "NFO" || segment == "MCX" then 1 else quantity

/-- True when the trace opens with the ATTEMPTING ledger insert. -/
def attempting_first (evs : List Event) : Bool :=
  match evs with
  | .ledgerInsert .ATTEMPTING _ :: _ => true
  | _ => false

/-- All ledger statuses written during the trace, in order. -/
def ledger_statuses (evs : List Event) : List LedgerStatus :=
  evs.filterMap fun e =>
    match e with
    | .ledgerInsert s _ => some s
    | .ledgerUpdate s => some s
    | .brokerCall _ => none

/-- Number of terminal-status updates in the trace. -/
def terminal_update_count (evs : List Event) : Nat :=
  (evs.filter fun e =>
    match e with
    | .ledgerUpdate s => s.isTerminal
    | _ => false).length

/-- True when the last ledger write of the trace is a terminal status. -/
def last_ledger_terminal (evs : List Event) : Bool :=
  match (ledger_statuses evs).getLast? with
  | some s => s.isTerminal
  | none => false

/-- True for every product other than MIS. -/
def prod_not_mis : Product → Bool
  | .MIS => false
  | _ => true

/-- True when no order parameter in the trace, logged or sent to the broker,
carries the MIS product. -/
def no_mis_in_trace (evs : List Event) : Bool :=
  evs.all fun e =>
    match e with
    | .ledgerInsert _ p => prod_not_mis p
    | .brokerCall q => prod_not_mis q.product
    | .ledgerUpdate _ => true

/-- The order-shape triple of one broker call: order type, limit price and
validity. -/
def call_shape (p : OrderParams) : OrderKind × Option ℚ × Option Validity :=
  (p.order_type, p.price, p.validity)

/-- The database log never records the MIS product. -/
theorem logged_product_not_mis (segment : String) :
    prod_not_mis (logged_product_type segment) = true := by
  unfold logged_product_type
  split
  · rfl
  · split <;> rfl

/-- The live broker product at src/orders.py line 257 is never MIS,
whichever way the segment comparison goes. -/
theorem live_product_not_mis (c : Prop) [Decidable c] :
    prod_not_mis (if c then Product.NRML else Product.CNC) = true := by
  split <;> rfl

/-- Every event of a place_order run is free of the MIS product. -/
theorem place_order_no_mis (env : Env) (tradingsymbol action : String)
    (price : ℚ) (segment : String) (quantity : Int) :
    no_mis_in_trace (place_order env tradingsymbol action price segment quantity).events = true := by
  rcases env with ⟨ft, dup, fr, sr, sid⟩
  cases ft
  · cases dup
    · cases fr with
      | ok oid =>
          simp [place_order, no_mis_in_trace, logged_product_not_mis,
            live_product_not_mis]
      | err msg =>
          cases h : illiquid_marker msg with
          | true =>
              cases hp : protected_price action price with
              | some pp =>
                  cases sr <;>
                    simp [place_order, no_mis_in_trace, h, hp,
                      logged_product_not_mis, live_product_not_mis]
              | none =>
                  simp [place_order, no_mis_in_trace, h, hp,
                    logged_product_not_mis, live_product_not_mis]
          | false =>
              simp [place_order, no_mis_in_trace, h,
                logged_product_not_mis, live_product_not_mis]
    · simp [place_order, no_mis_in_trace, logged_product_not_mis]
  · simp [place_order, no_mis_in_trace, logged_product_not_mis]

/-- Every broker call of a place_order run carries the quantity the run was
asked to trade. -/
theorem place_order_calls_quantity (env : Env) (tradingsymbol action : String)
    (price : ℚ) (segment : String) (quantity : Int) :
    ((place_order env tradingsymbol action price segment quantity).calls.all
      fun p => p.quantity == quantity) = true := by
  rcases env with ⟨ft, dup, fr, sr, sid⟩
  cases ft
  · cases dup
    · cases fr with
      | ok oid => simp [place_order, PlaceOrderRun.calls]
      | err msg =>
          cases h : illiquid_marker msg with
          | true =>
              cases hp : protected_price action price with
              | some pp =>
                  cases sr <;> simp [place_order, PlaceOrderRun.calls, h, hp]
              | none => simp [place_order, PlaceOrderRun.calls, h, hp]
          | false => simp [place_order, PlaceOrderRun.calls, h]
    · simp [place_order, PlaceOrderRun.calls]
  · simp [place_order, PlaceOrderRun.calls]

/-- C1: the spec's reconciliation table says a buy against a short position
submits a BUY cover order for the absolute held quantity.  Evaluating the
embedded code on a short position of 50 in an NFO contract shows the cover
branch instead raises TypeError (its place_order call passes ten positional
arguments against an arity of nine), the handler reports status error, and no
broker order is submitted. -/
theorem C1_cover_short_submits_no_order :
    (process_step2 ⟨false, false, .ok ("OID1"), .ok ("OID2"), "SIM"⟩
      ("NIFTY24AUGFUT") ("NFO") ("buy") 100 (-50) 50).status = "error" ∧
    (process_step2 ⟨false, false, .ok ("OID1"), .ok ("OID2"), "SIM"⟩
      ("NIFTY24AUGFUT") ("NFO") ("buy") 100 (-50) 50).calls = [] := by
  decide

/-- C3: the spec says cash short-opens and short-covers are submitted with
product MIS.  Evaluating the embedded code on a flat cash sell shows the
short-open branch raises TypeError (the product_override argument does not
exist in place_order's signature) and submits nothing; moreover no
place_order run, on any input, ever logs or sends the MIS product. -/
theorem C3_cash_short_never_uses_mis :
    ((process_step2 ⟨false, false, .ok ("OID1"), .ok ("OID2"), "SIM"⟩
        ("SBIN") ("NSE") ("sell") 100 0 10).status = "error" ∧
      (process_step2 ⟨false, false, .ok ("OID1"), .ok ("OID2"), "SIM"⟩
        ("SBIN") ("NSE") ("sell") 100 0 10).calls = []) ∧
    ∀ env tradingsymbol action price segment quantity,
      no_mis_in_trace
        (place_order env tradingsymbol action price segment quantity).events = true := by
  exact ⟨by decide, place_order_no_mis⟩

/-- C5: the spec says a due rollover closes the held contract and opens the
next one.  Evaluating the embedded rollover body on a held MCX position of 10
with days_left = 3 on a Tuesday shows it raises NameError on the unbound name
order_id (both place_order calls are commented out in the source), and no
input whatever makes the rollover body produce a broker order. -/
theorem C5_rollover_places_no_orders :
    rollover_symbol_step
      [⟨"GOLD24SEPFUT", some 8, 100⟩, ⟨"GOLD24OCTFUT", some 38, 100⟩]
      [⟨"GOLD24SEPFUT", "MCX", 10, "NRML"⟩] 5 =
      .error (.nameError ("order_id")) ∧
    ∀ contracts positions today,
      no_orders_produced (rollover_symbol_step contracts positions today) = true := by
  constructor
  · rfl
  · intro contracts positions today
    unfold rollover_symbol_step
    split
    · rfl
    · split
      · rfl
      · split
        · rfl
        · dsimp only
          split
          · split
            · rfl
            · rfl
          · rfl

/-- C2: FIFO realized PnL.  On the successful rows buys
[(10 at 2500, t=1), (5 at 2520, t=2)] and sells [(8 at 2580, t=3),
(7 at 2590, t=4)], stored out of order to exercise the per-side ascending
timestamp sort, the engine reports realized PnL 1170 and current position 0;
and a side with no counterpart rows (an unmatched residual) contributes no
realized PnL at all. -/
theorem C2_fifo_realized_pnl :
    (calculate_symbol_pnl
      [⟨some ("104"), "SELL", 7, some 2590, "SUCCESS", 4⟩,
       ⟨some ("102"), "BUY", 5, some 2520, "SUCCESS", 2⟩,
       ⟨some ("101"), "BUY", 10, some 2500, "SUCCESS", 1⟩,
       ⟨some ("103"), "SELL", 8, some 2580, "SUCCESS", 3⟩]).realized_pnl = 1170 ∧
    (calculate_symbol_pnl
      [⟨some ("104"), "SELL", 7, some 2590, "SUCCESS", 4⟩,
       ⟨some ("102"), "BUY", 5, some 2520, "SUCCESS", 2⟩,
       ⟨some ("101"), "BUY", 10, some 2500, "SUCCESS", 1⟩,
       ⟨some ("103"), "SELL", 8, some 2580, "SUCCESS", 3⟩]).current_position = 0 ∧
    (∀ buys, calculate_fifo_pnl buys [] = 0) ∧
    (∀ sells, calculate_fifo_pnl [] sells = 0) := by
  refine ⟨?_, ?_, ?_, ?_⟩
  · simp [calculate_symbol_pnl, truthy_id, calculate_fifo_pnl, sort_by_ts,
      insert_by_ts, fifo_go]
    norm_num
  · simp [calculate_symbol_pnl, truthy_id]
  · intro buys
    unfold calculate_fifo_pnl
    simp
  · intro sells
    unfold calculate_fifo_pnl
    simp

/-- C4 counterexample: with the holdings leg timed out and the positions leg
succeeding with an NSE net position of 25, the embedded cash-segment read
returns signed quantity 0, while the per-leg degradation the claim describes
would return 25 from the succeeding leg; the claim is false on this input. -/
theorem C4_counterexample :
    nse_positions_and_holdings (.error ()) (.ok [⟨"SBIN", "NSE", 25, "MIS"⟩])
      ("SBIN") = (0, none) ∧
    spec_per_leg_degraded_quantity (.error ())
      (.ok [⟨"SBIN", "NSE", 25, "MIS"⟩]) ("SBIN") = 25 ∧
    (0 : Int) ≠ 25 := by
  refine ⟨rfl, rfl, by decide⟩

/-- C4 amended: whenever either leg of the parallel NSE holdings+positions
fetch fails (timeout or error), the whole read returns signed quantity 0 and
no position row, because asyncio.gather propagates the exception into the
surrounding handler; there is no per-leg degradation. -/
theorem C4_any_leg_failure_zeroes_read
    (holdingsLeg : Except Unit (List HoldingRow))
    (positionsLeg : Except Unit (List PositionRow)) (tradingsymbol : String)
    (h : holdingsLeg = .error () ∨ positionsLeg = .error ()) :
    nse_positions_and_holdings holdingsLeg positionsLeg tradingsymbol =
      (0, none) := by
  rcases h with h | h
  · subst h
    rfl
  · subst h
    cases holdingsLeg <;> rfl

/-- C4 amended, witnessed at a concrete input: positions leg failed while the
holdings leg succeeded. -/
theorem C4_any_leg_failure_zeroes_read_witness :
    nse_positions_and_holdings (.ok [⟨"SBIN", 12, some 3⟩]) (.error ())
      ("SBIN") = (0, none) :=
  C4_any_leg_failure_zeroes_read _ _ _ (Or.inr rfl)

/-- C8 counterexample: on a live submission whose market order is rejected
with a non-illiquid error, the embedded place_order writes the terminal
FAILED update twice (once before re-raising at line 341, once in the outer
handler at line 350), refuting the claim that every ledger row receives
exactly one terminal status update. -/
theorem C8_nonilliquid_rejection_double_update :
    terminal_update_count
      (place_order ⟨false, false, .err ("insufficient funds"), .ok ("X"), "SIM"⟩
        ("SBIN") ("buy") 100 ("NSE") 10).events = 2 ∧
    terminal_update_count
      (place_order ⟨false, false, .err ("insufficient funds"), .ok ("X"), "SIM"⟩
        ("SBIN") ("buy") 100 ("NSE") 10).events ≠ 1 := by
  constructor
  · rfl
  · decide

/-- C8 amended: on every place_order run under a working database, the
ATTEMPTING ledger row is the very first event (so it precedes any broker
call), the last ledger write is terminal, and the number of terminal updates
is exactly one on every path except a live non-illiquid broker rejection,
where the FAILED update is written twice. -/
theorem C8_ledger_terminal_updates (env : Env) (tradingsymbol action : String)
    (price : ℚ) (segment : String) (quantity : Int) :
    attempting_first
      (place_order env tradingsymbol action price segment quantity).events = true ∧
    last_ledger_terminal
      (place_order env tradingsymbol action price segment quantity).events = true ∧
    terminal_update_count
      (place_order env tradingsymbol action price segment quantity).events =
      (match env.forwardTesting, env.hasDuplicate, env.firstReply with
       | false, false, .err msg => if illiquid_marker msg then 1 else 2
       | _, _, _ => 1) := by
  rcases env with ⟨ft, dup, fr, sr, sid⟩
  cases ft
  · cases dup
    · cases fr with
      | ok oid =>
          simp [place_order, attempting_first, last_ledger_terminal,
            ledger_statuses, terminal_update_count, LedgerStatus.isTerminal]
      | err msg =>
          cases h : illiquid_marker msg with
          | true =>
              cases hp : protected_price action price with
              | some pp =>
                  cases sr <;>
                    simp [place_order, h, hp, attempting_first,
                      last_ledger_terminal, ledger_statuses,
                      terminal_update_count, LedgerStatus.isTerminal]
              | none =>
                  simp [place_order, h, hp, attempting_first,
                    last_ledger_terminal, ledger_statuses,
                    terminal_update_count, LedgerStatus.isTerminal]
          | false =>
              simp [place_order, h, attempting_first, last_ledger_terminal,
                ledger_statuses, terminal_update_count, LedgerStatus.isTerminal]
    · simp [place_order, attempting_first, last_ledger_terminal,
        ledger_statuses, terminal_update_count, LedgerStatus.isTerminal]
  · simp [place_order, attempting_first, last_ledger_terminal,
      ledger_statuses, terminal_update_count, LedgerStatus.isTerminal]

/-- C6: on a live submission whose market order is rejected, a rejection in
the illiquid / market-protection message class is retried exactly once as a
limit order at reference price times 1.005 for buys and 0.995 for sells with
day validity, while any other rejection is terminal: the market order remains
the only broker call and the run returns no order id. -/
theorem C6_illiquid_retry (env : Env) (tradingsymbol action : String)
    (price : ℚ) (segment : String) (quantity : Int) (msg : String)
    (hft : env.forwardTesting = false) (hdup : env.hasDuplicate = false)
    (hfr : env.firstReply = .err msg) :
    (illiquid_marker msg = false →
      ((place_order env tradingsymbol action price segment quantity).calls.map
          call_shape = [(.MARKET, none, none)] ∧
        (place_order env tradingsymbol action price segment quantity).orderId =
          none)) ∧
    (illiquid_marker msg = true → action = "buy" →
      (place_order env tradingsymbol action price segment quantity).calls.map
        call_shape =
        [(.MARKET, none, none),
         (.LIMIT, some (price * (1 + 5 / 1000)), some .DAY)]) ∧
    (illiquid_marker msg = true → action = "sell" →
      (place_order env tradingsymbol action price segment quantity).calls.map
        call_shape =
        [(.MARKET, none, none),
         (.LIMIT, some (price * (1 - 5 / 1000)), some .DAY)]) := by
  rcases env with ⟨ft, dup, fr, sr, sid⟩
  cases hft
  cases hdup
  cases hfr
  refine ⟨?_, ?_, ?_⟩
  · intro h
    simp [place_order, h, PlaceOrderRun.calls, call_shape]
  · intro h ha
    cases ha
    have hp : protected_price ("buy") price = some (price * (1 + 5 / 1000)) := rfl
    cases sr <;>
      simp [place_order, h, hp, PlaceOrderRun.calls, call_shape]
  · intro h ha
    cases ha
    have hp : protected_price ("sell") price = some (price * (1 - 5 / 1000)) := rfl
    cases sr <;>
      simp [place_order, h, hp, PlaceOrderRun.calls, call_shape]

/-- C6 witnessed at concrete inputs: an illiquid rejection on a BUY at
reference price 100 retries once as a limit order at 100.5 with day validity,
and a non-illiquid rejection on a SELL makes no second call. -/
theorem C6_illiquid_retry_witness :
    ((place_order ⟨false, false, .err ("illiquid"), .ok ("OID2"), "SIM"⟩
        ("GOLDBEES") ("buy") 100 ("NSE") 10).calls.map call_shape =
      [(.MARKET, none, none),
       (.LIMIT, some (100 * (1 + 5 / 1000)), some .DAY)]) ∧
    ((place_order ⟨false, false, .err ("insufficient funds"), .ok ("OID2"), "SIM"⟩
        ("GOLDBEES") ("sell") 100 ("NSE") 10).calls.map call_shape =
      [(.MARKET, none, none)]) ∧
    (100 : ℚ) * (1 + 5 / 1000) = 201 / 2 := by
  refine ⟨?_, ?_, by norm_num⟩
  · exact (C6_illiquid_retry _ _ _ _ _ _ _ rfl rfl rfl).2.1 (by decide) rfl
  · exact ((C6_illiquid_retry _ _ _ _ _ _ _ rfl rfl rfl).1 (by decide)).1

/-- C7: when flat in a derivative segment the entry contract follows the
rollover rule: with the front expiry at most 7 days away on a weekday and a
second contract present the second contract is selected, and otherwise (more
than 7 days left, a weekend, or no second candidate) the front contract is
selected. -/
theorem C7_flat_entry_selection (c0 c1 : Contract) (rest : List Contract)
    (e today : Int) (hexp : c0.expiry = some e) :
    (e - today ≤ 7 → weekday today < 5 →
      select_entry_contract (c0 :: c1 :: rest) today = some c1) ∧
    (7 < e - today →
      select_entry_contract (c0 :: c1 :: rest) today = some c0) ∧
    (5 ≤ weekday today →
      select_entry_contract (c0 :: c1 :: rest) today = some c0) ∧
    (∀ t, select_entry_contract [c0] t = some c0) := by
  refine ⟨?_, ?_, ?_, ?_⟩
  · intro h1 h2
    simp only [select_entry_contract, hexp]
    rw [if_pos]
    · rfl
    · exact ⟨h1, h2, by simp⟩
  · intro h
    simp only [select_entry_contract, hexp]
    rw [if_neg]
    intro hc
    omega
  · intro h
    simp only [select_entry_contract, hexp]
    rw [if_neg]
    intro hc
    omega
  · intro t
    simp only [select_entry_contract, hexp]
    rw [if_neg]
    intro hc
    have := hc.2.2
    simp at this

/-- C7 witnessed at the spec's concrete input: front expiry 3 days away
(day 8 against day 5, a Tuesday, weekday 1) with a second contract available
selects the second contract. -/
theorem C7_flat_entry_selection_witness :
    select_entry_contract
      [⟨"NIFTY24JANFUT", some 8, 50⟩, ⟨"NIFTY24FEBFUT", some 38, 50⟩] 5 =
      some ⟨"NIFTY24FEBFUT", some 38, 50⟩ ∧
    (8 : Int) - 5 = 3 ∧ weekday 5 = 1 :=
  ⟨(C7_flat_entry_selection _ _ [] 8 5 rfl).1 (by decide) (by decide),
    by decide, by decide⟩

/-- C9: the idempotency gate reports a duplicate exactly when the key
idempotency:symbol:timestamp was already present, otherwise it sets that key
with a 24-hour (86400 s) expiry; and when every attempt hits a connection
error it sleeps 0.1 s then 0.2 s (exponential backoff, bounded at three
attempts) and fails open, reporting the signal as new. -/
theorem C9_idempotency_gate (store : List (String × Nat))
    (symbol timestamp : String) (outcomes : Nat → RedisAttempt) :
    (outcomes 0 = .reachable →
      ((is_duplicate store symbol timestamp outcomes).isDup =
          gate_key_present store symbol timestamp ∧
        (is_duplicate store symbol timestamp outcomes).store =
          (if gate_key_present store symbol timestamp then store
           else ("idempotency:" ++ symbol ++ ":" ++ timestamp, 86400) :: store))) ∧
    ((∀ i, outcomes i = .connError) →
      ((is_duplicate store symbol timestamp outcomes).isDup = false ∧
        (is_duplicate store symbol timestamp outcomes).sleeps =
          [1 / 10, 1 / 5])) := by
  constructor
  · intro h
    cases hk : gate_key_present store symbol timestamp with
    | true =>
        simp only [gate_key_present] at hk
        constructor <;>
          simp [is_duplicate, max_retries, is_dup_loop, h, redis_set_nx, hk,
            gate_key_present]
    | false =>
        simp only [gate_key_present] at hk
        constructor <;>
          simp [is_duplicate, max_retries, is_dup_loop, h, redis_set_nx, hk,
            gate_key_present]
  · intro h
    constructor
    · simp [is_duplicate, max_retries, is_dup_loop, h 0, h 1, h 2,
        redis_set_nx]
    · simp [is_duplicate, max_retries, is_dup_loop, h 0, h 1, h 2,
        redis_set_nx]
      norm_num

/-- C9 witnessed at concrete inputs: a reachable empty store admits the
signal, and a store that is unreachable on all three attempts backs off
0.1 s and 0.2 s and still admits the signal. -/
theorem C9_idempotency_gate_witness :
    (is_duplicate [] ("RELIANCE") ("2024-01-02T09:15:00Z")
      (fun _ => .reachable)).isDup = false ∧
    ((is_duplicate [] ("RELIANCE") ("2024-01-02T09:15:00Z")
        (fun _ => .connError)).isDup = false ∧
      (is_duplicate [] ("RELIANCE") ("2024-01-02T09:15:00Z")
        (fun _ => .connError)).sleeps = [1 / 10, 1 / 5]) := by
  constructor
  · have h := ((C9_idempotency_gate [] ("RELIANCE") ("2024-01-02T09:15:00Z")
      (fun _ => .reachable)).1 rfl).1
    simpa [gate_key_present] using h
  · exact (C9_idempotency_gate [] ("RELIANCE") ("2024-01-02T09:15:00Z")
      (fun _ => .connError)).2 (fun i => rfl)

/-- C10: for the derivative segments NFO and MCX the webhook overwrites the
requested quantity to 1, so the order size quantity times lot size equals one
lot, and every broker call produced by a flat reconciliation at that size is
for exactly lot_size units. -/
theorem C10_derivative_quantity_forced (segment : String)
    (payload_quantity : ℚ) (lot_size : Int) (env : Env)
    (tradingsymbol action : String) (price : ℚ)
    (hseg : segment = "NFO" ∨ segment = "MCX") :
    webhook_quantity segment payload_quantity = 1 ∧
    webhook_quantity segment payload_quantity * lot_size = lot_size ∧
    ((process_step2 env tradingsymbol segment action price 0
        (webhook_quantity segment payload_quantity * lot_size)).calls.all
      fun p => p.quantity == lot_size) = true := by
  have h1 : webhook_quantity segment payload_quantity = 1 := by
    rcases hseg with h | h <;> subst h <;> simp [webhook_quantity]
  refine ⟨h1, by rw [h1]; exact one_mul lot_size, ?_⟩
  rw [h1, one_mul]
  cases hb : action == "buy" with
  | true =>
      have run := place_order_calls_quantity env tradingsymbol action price
        segment lot_size
      simp [process_step2, hb, call_place_order, place_order_positional_arity,
        Step2Result.calls, PlaceOrderRun.calls] at run ⊢
      exact run
  | false =>
      cases hs : action == "sell" with
      | true =>
          simp [process_step2, hb, hs, call_place_order,
            place_order_positional_arity, Step2Result.calls]
      | false =>
          simp [process_step2, hb, hs, Step2Result.calls]

/-- C10 witnessed at a concrete input: an NFO signal asking for quantity 7 is
forced to one lot of 50, and the flat buy order it produces is for 50 units. -/
theorem C10_derivative_quantity_forced_witness :
    webhook_quantity ("NFO") 7 = 1 ∧
    webhook_quantity ("NFO") 7 * 50 = 50 ∧
    ((process_step2 ⟨false, false, .ok ("OID1"), .ok ("OID2"), "SIM"⟩
        ("NIFTY24JANFUT") ("NFO") ("buy") 100 0
        (webhook_quantity ("NFO") 7 * 50)).calls.all
      fun p => p.quantity == 50) = true :=
  C10_derivative_quantity_forced ("NFO") 7 50
    ⟨false, false, .ok ("OID1"), .ok ("OID2"), "SIM"⟩ ("NIFTY24JANFUT")
    ("buy") 100 (Or.inl rfl)
